import Mathlib

/-!
Verification development for the linkinzzz bot's media-acquisition pipeline.

The Python sources are shallowly embedded as Lean definitions:
pure helpers become Lean functions, and the effectful download cascade is
modelled by explicit oracles (one function per external outcome) together
with an explicit trace of the side effects the code performs.
-/

set_option maxRecDepth 4096

namespace Linkinzzz

/-! ### String helpers (Python `in` on strings, `str.lower`) -/

/-- Is `needle` a leading block of `hay`? Helper for the substring test. -/
def leadsChars : List Char → List Char → Bool
  | [], _ => true
  | _ :: _, [] => false
  | a :: as, b :: bs => a == b && leadsChars as bs

/-- Does `needle` occur contiguously inside `hay`? -/
def hasSubChars (needle : List Char) : List Char → Bool
  | [] => leadsChars needle []
  | c :: t => leadsChars needle (c :: t) || hasSubChars needle t

/-- Python's `str.lower`, as a character list (the code only lowercases ASCII
tool output, where Python's and Lean's per-character lowering agree). -/
def pyLowerChars (s : String) : List Char :=
  s.toList.map Char.toLower

/-- Python's `needle in hay.lower()` on strings. -/
def strHasSubLower (hay needle : String) : Bool :=
  hasSubChars needle.toList (pyLowerChars hay)

/-! ### `src/utils/ytdlp_utils.py`: `FormatInfo` and the format catalog -/

/-- Embeds `MAX_SIZE_MB = 50` (ytdlp_utils.py line 8). -/
def MAX_SIZE_MB : Nat := 50

/-- The `FormatInfo` dataclass (ytdlp_utils.py lines 16-24).  The string
fields hold the values after `parse_format` applied its `dict.get`
defaults, so they are plain strings here. -/
structure FormatInfo where
  format_id : String
  height : Nat
  filesize : Option Nat
  acodec : String
  vcodec : String
  ext : String
  protocol : String
deriving Repr, DecidableEq

/-- Embeds `FormatInfo.filesize_mb` (lines 26-28): `self.filesize / 1024 / 1024 if
self.filesize else None`.  Python truthiness makes both a null and a zero
`filesize` yield `None`; byte sizes are divided exactly in `ℚ`. -/
def FormatInfo.filesize_mb (f : FormatInfo) : Option ℚ :=
  match f.filesize with
  | some n => if n ≠ 0 then some ((n : ℚ) / 1024 / 1024) else none
  | none => none

/-- Embeds `FormatInfo.has_audio` (lines 30-32): `self.acodec not in ("none", None, "")`.
A null codec can only reach the field via `parse_format`'s default, which is
already `"none"`, so the null case collapses into the `"none"` test. -/
def FormatInfo.has_audio (f : FormatInfo) : Bool :=
  !(f.acodec == "none" || f.acodec == "")

/-- Embeds `FormatInfo.has_video` (lines 34-36). -/
def FormatInfo.has_video (f : FormatInfo) : Bool :=
  !(f.vcodec == "none" || f.vcodec == "")

/-- Embeds `FormatInfo.is_hls` (lines 38-40):
`self.protocol in ("m3u8", "m3u8_native") or "hls" in self.protocol.lower()`. -/
def FormatInfo.is_hls (f : FormatInfo) : Bool :=
  f.protocol == "m3u8" || f.protocol == "m3u8_native"
    || strHasSubLower f.protocol "hls"

/-- One raw format descriptor as handed to `parse_format` (a JSON dict from
the extraction tool).  Only the keys the code reads are modelled; an absent
key and an explicit null are both `none` (the two are indistinguishable for
every field the claims touch). -/
structure RawFormat where
  height : Option Nat
  format_id : Option String
  filesize : Option Nat
  filesize_approx : Option Nat
  acodec : Option String
  vcodec : Option String
  ext : Option String
  protocol : Option String
deriving Repr, DecidableEq

/-- Embeds `VideoDownloader.parse_format` (lines 49-62).  `if not height: return None`
drops descriptors with a missing or zero height; `filesize=fmt.get("filesize")
or fmt.get("filesize_approx")` falls back when `filesize` is null or zero. -/
def parse_format (fmt : RawFormat) : Option FormatInfo :=
  match fmt.height with
  | none => none
  | some h =>
    if h = 0 then none
    else some {
      format_id := fmt.format_id.getD "unknown"
      height := h
      filesize :=
        match fmt.filesize with
        | some n => if n ≠ 0 then some n else fmt.filesize_approx
        | none => fmt.filesize_approx
      acodec := fmt.acodec.getD "none"
      vcodec := fmt.vcodec.getD "none"
      ext := fmt.ext.getD "unknown"
      protocol := fmt.protocol.getD "unknown" }

/-- The comparison behind `candidates.sort(key=lambda f: (f.is_hls, -f.height))`
(lines 75 and 86): lexicographic on the pair `(is_hls, -height)`, in `≤` form
for the stable merge sort modelling Python's stable `list.sort`. -/
def formatKeyLe (a b : FormatInfo) : Bool :=
  (!a.is_hls && b.is_hls) || (a.is_hls == b.is_hls && decide (b.height ≤ a.height))

/-- Embeds `VideoDownloader.get_youtube_formats` (lines 64-76): parse every raw
descriptor, keep candidates with `height <= 1080`, audio and video present,
then sort by `(is_hls, -height)`. -/
def get_youtube_formats (formats : List RawFormat) : List FormatInfo :=
  ((formats.filterMap parse_format).filter
      (fun info => decide (info.height ≤ 1080) && info.has_audio && info.has_video)
    ).mergeSort formatKeyLe

/-- Embeds `VideoDownloader.get_generic_formats` (lines 78-87): parse every raw
descriptor and sort by `(is_hls, -height)`, with no extra filter. -/
def get_generic_formats (formats : List RawFormat) : List FormatInfo :=
  (formats.filterMap parse_format).mergeSort formatKeyLe

theorem formatKeyLe_trans (a b c : FormatInfo)
    (hab : formatKeyLe a b) (hbc : formatKeyLe b c) : formatKeyLe a c := by
  simp only [formatKeyLe, Bool.or_eq_true, Bool.and_eq_true, Bool.not_eq_true',
    beq_iff_eq, decide_eq_true_eq] at *
  cases hA : a.is_hls <;> cases hB : b.is_hls <;> cases hC : c.is_hls <;>
    simp_all <;> omega

theorem formatKeyLe_total (a b : FormatInfo) : formatKeyLe a b || formatKeyLe b a := by
  simp only [formatKeyLe, Bool.or_eq_true, Bool.and_eq_true, Bool.not_eq_true',
    beq_iff_eq, decide_eq_true_eq]
  cases ha : a.is_hls <;> cases hb : b.is_hls <;> simp <;> omega

/-- The ordering the spec ascribes to the ranked output: an earlier candidate
relates to every later one by "non-segmented first, then higher resolution
first within a transport class". -/
def rankRel (a b : FormatInfo) : Prop :=
  (a.is_hls ≠ b.is_hls → a.is_hls = false ∧ b.is_hls = true) ∧
    (a.is_hls = b.is_hls → b.height ≤ a.height)

theorem formatKeyLe_rankRel (a b : FormatInfo) (h : formatKeyLe a b = true) :
    rankRel a b := by
  simp only [formatKeyLe, Bool.or_eq_true, Bool.and_eq_true, Bool.not_eq_true',
    beq_iff_eq, decide_eq_true_eq] at h
  constructor
  · intro hne
    rcases h with ⟨ha, hb⟩ | ⟨heq, _⟩
    · exact ⟨ha, hb⟩
    · exact absurd heq hne
  · intro heq
    rcases h with ⟨ha, hb⟩ | ⟨_, hle⟩
    · rw [ha, hb] at heq; exact absurd heq (by simp)
    · exact hle

/-- Sample raw descriptors: a progressive 1080p muxed rendition, a progressive
720p muxed rendition, a segmented 720p muxed rendition, an audio-only
descriptor with no height, and a 1440p rendition. -/
def rawA : RawFormat :=
  { height := some 1080, format_id := some "137m", filesize := some 1000000,
    filesize_approx := none, acodec := some "mp4a.40.2", vcodec := some "avc1",
    ext := some "mp4", protocol := some "https" }

def rawB : RawFormat :=
  { height := some 720, format_id := some "22", filesize := some 500000,
    filesize_approx := none, acodec := some "mp4a.40.2", vcodec := some "avc1",
    ext := some "mp4", protocol := some "https" }

def rawC : RawFormat :=
  { height := some 720, format_id := some "hls-720", filesize := none,
    filesize_approx := some 600000, acodec := some "mp4a.40.2", vcodec := some "avc1",
    ext := some "mp4", protocol := some "m3u8_native" }

def rawNoHeight : RawFormat :=
  { height := none, format_id := some "140", filesize := some 300000,
    filesize_approx := none, acodec := some "mp4a.40.2", vcodec := some "none",
    ext := some "m4a", protocol := some "https" }

def rawsSample : List RawFormat := [rawB, rawNoHeight, rawC, rawA]

/-- The `FormatInfo` that `parse_format` produces for `rawB`. -/
def infoB : FormatInfo :=
  { format_id := "22", height := 720, filesize := some 500000,
    acodec := "mp4a.40.2", vcodec := "avc1", ext := "mp4", protocol := "https" }

/-- C3: every candidate in the flagship ranked output has a non-empty audio
codec tag, a non-empty video codec tag, and vertical resolution at most 1080,
and arises from some raw descriptor that did carry a resolution; descriptors
lacking a resolution are dropped by `parse_format` and never appear. -/
theorem youtube_catalog_members (formats : List RawFormat) (info : FormatInfo)
    (hmem : info ∈ get_youtube_formats formats) :
    info.has_audio = true ∧ info.has_video = true ∧ info.height ≤ 1080 ∧
      ∃ fmt ∈ formats, fmt.height ≠ none ∧ fmt.height ≠ some 0 ∧
        parse_format fmt = some info := by
  rw [get_youtube_formats, List.mem_mergeSort, List.mem_filter] at hmem
  obtain ⟨hmem, hcond⟩ := hmem
  simp only [Bool.and_eq_true, decide_eq_true_eq] at hcond
  obtain ⟨⟨h1080, haud⟩, hvid⟩ := hcond
  rw [List.mem_filterMap] at hmem
  obtain ⟨fmt, hfmt, hparse⟩ := hmem
  refine ⟨haud, hvid, h1080, fmt, hfmt, ?_, ?_, hparse⟩
  · intro hnone
    rw [parse_format, hnone] at hparse
    exact Option.noConfusion hparse
  · intro hzero
    rw [parse_format, hzero] at hparse
    simp at hparse

theorem youtube_catalog_members_witness :
    infoB ∈ get_youtube_formats rawsSample ∧
      (infoB.has_audio = true ∧ infoB.has_video = true ∧ infoB.height ≤ 1080 ∧
        ∃ fmt ∈ rawsSample, fmt.height ≠ none ∧ fmt.height ≠ some 0 ∧
          parse_format fmt = some infoB) :=
  ⟨List.mem_mergeSort.mpr (by decide),
    youtube_catalog_members rawsSample infoB (List.mem_mergeSort.mpr (by decide))⟩

/-- C4: in both the flagship and the generic ranked outputs, whenever two
candidates have different segmented-transport flags the non-segmented one
appears first regardless of resolution, and among candidates with the same
flag a strictly higher resolution never appears after a lower one. -/
theorem ranked_output_order (formats : List RawFormat) :
    List.Pairwise rankRel (get_youtube_formats formats) ∧
      List.Pairwise rankRel (get_generic_formats formats) := by
  constructor
  · exact (List.sorted_mergeSort formatKeyLe_trans formatKeyLe_total _).imp
      (formatKeyLe_rankRel _ _)
  · exact (List.sorted_mergeSort formatKeyLe_trans formatKeyLe_total _).imp
      (formatKeyLe_rankRel _ _)

theorem ranked_output_order_witness :
    List.Pairwise rankRel (get_youtube_formats rawsSample) ∧
      List.Pairwise rankRel (get_generic_formats rawsSample) :=
  ranked_output_order rawsSample

/-! ### The download cascade (`download_youtube` / `download_generic`)

`try_format` and `try_smart_download` perform network and disk I/O; the
cascade is embedded with oracles `tf`/`ts` giving each attempt's outcome
(`None`, or the bytes read back), and every theorem also tracks the ordered
trace of attempts. -/

/-- One attempt made by the cascade: an explicit per-candidate fetch
(`try_format`) or the smart-download fallback (`try_smart_download`). -/
inductive Attempt where
  | explicitFetch (f : FormatInfo)
  | smart (maxHeight : Nat)
deriving Repr, DecidableEq

/-- Result of `download_youtube` / `download_generic`: `bytes | int` in the
Python, where the failure sentinel is the integer `0`. -/
inductive DLResult where
  | bytes (b : List Nat)
  | sentinel (n : Nat)
deriving Repr, DecidableEq

/-- Python truthiness of a `bytes | None` value (`if result:`): `None` and
an empty `bytes` are both falsy. -/
def truthyBytes : Option (List Nat) → Bool
  | some (_ :: _) => true
  | _ => false

/-- One per-tier loop
(`for format_info in tier: result = await self.try_format(format_info); if result: return result`):
try each candidate in order, stop at the first truthy result, and record
every `try_format` invocation. -/
def tryList (tf : FormatInfo → Option (List Nat)) :
    List FormatInfo → Option (List Nat) × List Attempt
  | [] => (none, [])
  | f :: rest =>
    if truthyBytes (tf f) then (tf f, [Attempt.explicitFetch f])
    else
      let r := tryList tf rest
      (r.1, Attempt.explicitFetch f :: r.2)

/-- Sequencing of two cascade stages with early return: if the first stage
produced a truthy result the second never runs. -/
def cascade2 (r1 r2 : Option (List Nat) × List Attempt) :
    Option (List Nat) × List Attempt :=
  match r1.1 with
  | some b => (some b, r1.2)
  | none => (r2.1, r1.2 ++ r2.2)

/-- Embeds `result = await self.try_smart_download(target_height); if result: return result`
(lines 213-215): one smart attempt, kept only when truthy. -/
def smartAttempt (ts : Nat → Option (List Nat)) (h : Nat) :
    Option (List Nat) × List Attempt :=
  (if truthyBytes (ts h) then ts h else none, [Attempt.smart h])

/-- One iteration of `download_youtube`'s height loop (lines 197-215): up to 3
non-segmented candidates at the target height, then up to 2 segmented ones,
then the smart fallback bounded to that height, each stage short-circuiting. -/
def youtubeAtHeight (tf : FormatInfo → Option (List Nat))
    (ts : Nat → Option (List Nat)) (formats : List FormatInfo) (h : Nat) :
    Option (List Nat) × List Attempt :=
  cascade2 (tryList tf ((formats.filter fun f => decide (f.height = h) && !f.is_hls).take 3))
    (cascade2 (tryList tf ((formats.filter fun f => decide (f.height = h) && f.is_hls).take 2))
      (smartAttempt ts h))

/-- Embeds `VideoDownloader.download_youtube` (lines 196-217): the height loop
`for target_height in (1080, 720)` unrolled, with `return 0` when both
heights exhaust. -/
def download_youtube (tf : FormatInfo → Option (List Nat))
    (ts : Nat → Option (List Nat)) (formats : List FormatInfo) :
    DLResult × List Attempt :=
  let r := cascade2 (youtubeAtHeight tf ts formats 1080) (youtubeAtHeight tf ts formats 720)
  ((match r.1 with
    | some b => DLResult.bytes b
    | none => DLResult.sentinel 0), r.2)

/-- Embeds `VideoDownloader.download_generic` (lines 219-233): up to 2 non-segmented
candidates; only when fewer than 2 were available, top up with
`2 - len(non_hls)` segmented candidates; else `return 0`. -/
def download_generic (tf : FormatInfo → Option (List Nat))
    (formats : List FormatInfo) : DLResult × List Attempt :=
  let non_hls := (formats.filter fun f => !f.is_hls).take 2
  let r1 := tryList tf non_hls
  let r :=
    match r1.1 with
    | some b => (some b, r1.2)
    | none =>
      if non_hls.length < 2 then
        let hls := (formats.filter fun (f : FormatInfo) => f.is_hls).take (2 - non_hls.length)
        let r2 := tryList tf hls
        (r2.1, r1.2 ++ r2.2)
      else (none, r1.2)
  ((match r.1 with
    | some b => DLResult.bytes b
    | none => DLResult.sentinel 0), r.2)

/-- The full attempt schedule of `download_youtube` at one target height. -/
def ytHeightSchedule (formats : List FormatInfo) (h : Nat) : List Attempt :=
  ((formats.filter fun f => decide (f.height = h) && !f.is_hls).take 3).map Attempt.explicitFetch
    ++ (((formats.filter fun f => decide (f.height = h) && f.is_hls).take 2).map Attempt.explicitFetch
      ++ [Attempt.smart h])

/-- The full attempt schedule of `download_youtube`: 1080 strictly before 720. -/
def ytSchedule (formats : List FormatInfo) : List Attempt :=
  ytHeightSchedule formats 1080 ++ ytHeightSchedule formats 720

/-- The full attempt schedule of `download_generic`. -/
def genSchedule (formats : List FormatInfo) : List Attempt :=
  let non_hls := (formats.filter fun f => !f.is_hls).take 2
  non_hls.map Attempt.explicitFetch ++
    (if non_hls.length < 2 then
      ((formats.filter fun f => f.is_hls).take (2 - non_hls.length)).map Attempt.explicitFetch
    else [])

/-- A cascade stage is faithful to its schedule: its trace is a schedule
prefix, and an exhausted stage ran the whole schedule. -/
def TraceSpec (r : Option (List Nat) × List Attempt) (sched : List Attempt) : Prop :=
  (∃ n, r.2 = sched.take n) ∧ (r.1 = none → r.2 = sched)

theorem append_take_extend {α : Type} (l₁ l₂ : List α) (n : Nat) :
    ∃ m, l₁.take n = (l₁ ++ l₂).take m := by
  by_cases h : n ≤ l₁.length
  · refine ⟨n, ?_⟩
    rw [List.take_append_eq_append_take, Nat.sub_eq_zero_of_le h]
    simp
  · refine ⟨l₁.length, ?_⟩
    rw [List.take_left, List.take_of_length_le (by omega)]

theorem append_take_compose {α : Type} (l₁ l₂ t : List α) (m : Nat)
    (h : t = l₂.take m) : ∃ k, l₁ ++ t = (l₁ ++ l₂).take k := by
  refine ⟨l₁.length + m, ?_⟩
  rw [List.take_append_eq_append_take, List.take_of_length_le (by omega)]
  simp [h]

theorem tryList_spec (tf : FormatInfo → Option (List Nat)) (l : List FormatInfo) :
    TraceSpec (tryList tf l) (l.map Attempt.explicitFetch) := by
  induction l with
  | nil => exact ⟨⟨0, rfl⟩, fun _ => rfl⟩
  | cons f rest ih =>
    obtain ⟨⟨n, hn⟩, hfull⟩ := ih
    cases h : truthyBytes (tf f) with
    | true =>
      have heq : tryList tf (f :: rest) = (tf f, [Attempt.explicitFetch f]) := by
        simp [tryList, h]
      refine ⟨⟨1, by rw [heq]; simp⟩, ?_⟩
      intro hnone
      rw [heq] at hnone
      simp only at hnone
      rw [hnone] at h
      simp [truthyBytes] at h
    | false =>
      have heq : tryList tf (f :: rest)
          = ((tryList tf rest).1, Attempt.explicitFetch f :: (tryList tf rest).2) := by
        simp [tryList, h]
      refine ⟨⟨n + 1, by rw [heq]; simp [hn]⟩, ?_⟩
      intro hnone
      rw [heq] at hnone ⊢
      simp only at hnone ⊢
      rw [hfull hnone]
      simp

theorem smartAttempt_spec (ts : Nat → Option (List Nat)) (h : Nat) :
    TraceSpec (smartAttempt ts h) [Attempt.smart h] :=
  ⟨⟨1, rfl⟩, fun _ => rfl⟩

theorem cascade2_spec {r1 r2 : Option (List Nat) × List Attempt}
    {s1 s2 : List Attempt} (h1 : TraceSpec r1 s1) (h2 : TraceSpec r2 s2) :
    TraceSpec (cascade2 r1 r2) (s1 ++ s2) := by
  obtain ⟨⟨n1, ht1⟩, hf1⟩ := h1
  obtain ⟨⟨n2, ht2⟩, hf2⟩ := h2
  cases hr : r1.1 with
  | some b =>
    have heq : cascade2 r1 r2 = (some b, r1.2) := by simp [cascade2, hr]
    constructor
    · rw [heq, ht1]
      exact append_take_extend s1 s2 n1
    · intro hnone
      rw [heq] at hnone
      simp only at hnone
      exact absurd hnone (by simp)
  | none =>
    have heq : cascade2 r1 r2 = (r2.1, r1.2 ++ r2.2) := by simp [cascade2, hr]
    constructor
    · rw [heq]
      simp only
      rw [hf1 hr, ht2]
      exact append_take_compose s1 s2 _ n2 rfl
    · intro hnone
      rw [heq] at hnone ⊢
      simp only at hnone ⊢
      rw [hf1 hr, hf2 hnone]

theorem youtubeAtHeight_spec (tf : FormatInfo → Option (List Nat))
    (ts : Nat → Option (List Nat)) (formats : List FormatInfo) (h : Nat) :
    TraceSpec (youtubeAtHeight tf ts formats h) (ytHeightSchedule formats h) :=
  cascade2_spec (tryList_spec tf _)
    (cascade2_spec (tryList_spec tf _) (smartAttempt_spec ts h))

theorem download_youtube_spec (tf : FormatInfo → Option (List Nat))
    (ts : Nat → Option (List Nat)) (formats : List FormatInfo) :
    (∃ n, (download_youtube tf ts formats).2 = (ytSchedule formats).take n) ∧
      ((download_youtube tf ts formats).1 = DLResult.sentinel 0 →
        (download_youtube tf ts formats).2 = ytSchedule formats) := by
  have hspec := cascade2_spec (youtubeAtHeight_spec tf ts formats 1080)
    (youtubeAtHeight_spec tf ts formats 720)
  obtain ⟨⟨n, hn⟩, hfull⟩ := hspec
  constructor
  · exact ⟨n, hn⟩
  · intro hs
    apply hfull
    unfold download_youtube at hs
    cases hr : (cascade2 (youtubeAtHeight tf ts formats 1080)
        (youtubeAtHeight tf ts formats 720)).1 with
    | some b => simp only [hr] at hs; exact absurd hs (by simp)
    | none => rfl

theorem ytHeightSchedule_length (formats : List FormatInfo) (h : Nat) :
    (ytHeightSchedule formats h).length ≤ 6 := by
  unfold ytHeightSchedule
  simp only [List.length_append, List.length_map, List.length_cons, List.length_nil]
  have h1 := List.length_take_le 3 (formats.filter fun f => decide (f.height = h) && !f.is_hls)
  have h2 := List.length_take_le 2 (formats.filter fun f => decide (f.height = h) && f.is_hls)
  omega

/-- C1: `download_youtube` works through target heights in strict order 1080
then 720; at each height it tries at most 3 non-segmented candidates, then at
most 2 segmented ones, then at most 1 smart fallback bounded to that height
(at most 6 attempts per height); its attempt trace is always a prefix of that
schedule, has length at most 12, and equals the whole schedule whenever the
failure sentinel is returned. -/
theorem download_youtube_cascade (tf : FormatInfo → Option (List Nat))
    (ts : Nat → Option (List Nat)) (formats : List FormatInfo) :
    (∃ n, (download_youtube tf ts formats).2 = (ytSchedule formats).take n) ∧
      (ytHeightSchedule formats 1080).length ≤ 6 ∧
      (ytHeightSchedule formats 720).length ≤ 6 ∧
      (download_youtube tf ts formats).2.length ≤ 12 ∧
      ((download_youtube tf ts formats).1 = DLResult.sentinel 0 →
        (download_youtube tf ts formats).2 = ytSchedule formats) := by
  obtain ⟨⟨n, hn⟩, hfull⟩ := download_youtube_spec tf ts formats
  have h1080 := ytHeightSchedule_length formats 1080
  have h720 := ytHeightSchedule_length formats 720
  refine ⟨⟨n, hn⟩, h1080, h720, ?_, hfull⟩
  have hlen : (ytSchedule formats).length ≤ 12 := by
    unfold ytSchedule
    rw [List.length_append]
    omega
  rw [hn, List.length_take]
  omega

theorem download_youtube_cascade_witness :
    (download_youtube (fun _ => none) (fun _ => none) [infoB]).1 = DLResult.sentinel 0 ∧
      (download_youtube (fun _ => none) (fun _ => none) [infoB]).2 = ytSchedule [infoB] :=
  ⟨by decide,
    (download_youtube_cascade (fun _ => none) (fun _ => none) [infoB]).2.2.2.2 (by decide)⟩

theorem mem_heightSchedule_fetch {formats : List FormatInfo} {h : Nat}
    {a : FormatInfo} (hmem : Attempt.explicitFetch a ∈ ytHeightSchedule formats h) :
    a.height = h := by
  unfold ytHeightSchedule at hmem
  rcases List.mem_append.mp hmem with h1 | hrest
  · obtain ⟨x, hx, hfx⟩ := List.mem_map.mp h1
    obtain rfl : x = a := by injection hfx
    have hmf := List.mem_filter.mp (List.take_subset _ _ hx)
    simp only [Bool.and_eq_true, decide_eq_true_eq] at hmf
    exact hmf.2.1
  · rcases List.mem_append.mp hrest with h2 | h3
    · obtain ⟨x, hx, hfx⟩ := List.mem_map.mp h2
      obtain rfl : x = a := by injection hfx
      have hmf := List.mem_filter.mp (List.take_subset _ _ hx)
      simp only [Bool.and_eq_true, decide_eq_true_eq] at hmf
      exact hmf.2.1
    · simp at h3

/-- C10: `download_youtube` never invokes `try_format` on a candidate whose
height is not exactly 1080 or exactly 720 — every explicit fetch in its
attempt trace targets one of those two heights, so candidates at any other
resolution are reachable only through the smart-download fallback. -/
theorem download_youtube_fetch_heights (tf : FormatInfo → Option (List Nat))
    (ts : Nat → Option (List Nat)) (formats : List FormatInfo) (a : FormatInfo)
    (hmem : Attempt.explicitFetch a ∈ (download_youtube tf ts formats).2) :
    a.height = 1080 ∨ a.height = 720 := by
  obtain ⟨⟨n, hn⟩, _⟩ := download_youtube_spec tf ts formats
  rw [hn] at hmem
  have hmem2 := List.take_subset n _ hmem
  rcases List.mem_append.mp hmem2 with h1 | h2
  · exact Or.inl (mem_heightSchedule_fetch h1)
  · exact Or.inr (mem_heightSchedule_fetch h2)

theorem download_youtube_fetch_heights_witness :
    Attempt.explicitFetch infoB ∈
        (download_youtube (fun _ => none) (fun _ => none) [infoB]).2 ∧
      (infoB.height = 1080 ∨ infoB.height = 720) :=
  ⟨by decide,
    download_youtube_fetch_heights (fun _ => none) (fun _ => none) [infoB] infoB (by decide)⟩

/-- Generic-path sample candidates: two progressive renditions and one
segmented rendition of strictly higher resolution. -/
def genA : FormatInfo :=
  { format_id := "http-720", height := 720, filesize := none, acodec := "aac",
    vcodec := "h264", ext := "mp4", protocol := "https" }

def genB : FormatInfo :=
  { format_id := "http-480", height := 480, filesize := none, acodec := "aac",
    vcodec := "h264", ext := "mp4", protocol := "https" }

def genC : FormatInfo :=
  { format_id := "hls-1080", height := 1080, filesize := none, acodec := "aac",
    vcodec := "h264", ext := "mp4", protocol := "m3u8" }

/-- C9 counterexample: with two non-segmented candidates available and one
segmented candidate of higher resolution, and every attempt failing,
`download_generic` tries only the two non-segmented candidates and never
tries the segmented one — because with `len(non_hls) = 2` the top-up budget
`2 - 2 = 0` disables the segmented tier entirely. -/
theorem download_generic_skips_segmented :
    genA.is_hls = false ∧ genB.is_hls = false ∧ genC.is_hls = true ∧
      genA.height < genC.height ∧ genB.height < genC.height ∧
      download_generic (fun _ => none) [genA, genB, genC]
        = (DLResult.sentinel 0,
            [Attempt.explicitFetch genA, Attempt.explicitFetch genB]) ∧
      Attempt.explicitFetch genC ∉
        (download_generic (fun _ => none) [genA, genB, genC]).2 := by
  decide

/-- C9 (amended): `download_generic` tries up to 2 ranked non-segmented
candidates; segmented candidates are tried only as a top-up when fewer than 2
non-segmented ones exist.  In the scenario with two failing non-segmented
candidates and one segmented candidate, exactly the two non-segmented
candidates are tried, in order, none skipped among them and none duplicated,
and the segmented candidate is never tried. -/
theorem download_generic_two_nonseg (tf : FormatInfo → Option (List Nat))
    (a b c : FormatInfo) (ha : a.is_hls = false) (hb : b.is_hls = false)
    (hc : c.is_hls = true) (hfa : tf a = none) (hfb : tf b = none) :
    download_generic tf [a, b, c]
        = (DLResult.sentinel 0, [Attempt.explicitFetch a, Attempt.explicitFetch b]) ∧
      Attempt.explicitFetch c ∉ (download_generic tf [a, b, c]).2 ∧
      (a ≠ b → (download_generic tf [a, b, c]).2.Nodup) := by
  have heq : download_generic tf [a, b, c]
      = (DLResult.sentinel 0, [Attempt.explicitFetch a, Attempt.explicitFetch b]) := by
    unfold download_generic
    simp [List.filter, ha, hb, hc, tryList, hfa, hfb, truthyBytes]
  refine ⟨heq, ?_, ?_⟩
  · rw [heq]
    intro hmem
    rcases List.mem_cons.mp hmem with h1 | h2
    · injection h1 with h1
      rw [← h1] at ha
      rw [ha] at hc
      exact Bool.noConfusion hc
    · rcases List.mem_cons.mp h2 with h3 | h4
      · injection h3 with h3
        rw [← h3] at hb
        rw [hb] at hc
        exact Bool.noConfusion hc
      · simp at h4
  · intro hab
    rw [heq]
    simp [hab]

theorem download_generic_two_nonseg_witness :
    download_generic (fun _ => none) [genA, genB, genC]
        = (DLResult.sentinel 0,
            [Attempt.explicitFetch genA, Attempt.explicitFetch genB]) ∧
      Attempt.explicitFetch genC ∉ (download_generic (fun _ => none) [genA, genB, genC]).2 ∧
      (genA ≠ genB → (download_generic (fun _ => none) [genA, genB, genC]).2.Nodup) :=
  download_generic_two_nonseg (fun _ => none) genA genB genC
    (by decide) (by decide) (by decide) rfl rfl

/-! ### `try_format` with explicit side effects (ytdlp_utils.py lines 89-181) -/

/-- Observable side effects of one `try_format` call. -/
inductive Effect where
  | clearWorkspace
  | fetchFormat (format_id : String)
  | readFile (path : String)
deriving Repr, DecidableEq

/-- Oracle for the externally determined outcomes of one `VideoDownloader`:
the file path `download_format` ends up returning (`none` when the tool
raised or produced no matching output file), `os.path.getsize`, and
`open(...).read()`. -/
structure Env where
  downloadOutcome : FormatInfo → Option String
  fileSizeBytes : String → Nat
  fileContents : String → List Nat

/-- Embeds `download_format` (lines 98-128): clear the workspace (`clear_tmpdir`),
invoke the external fetch tool for exactly this candidate's format id, and
hand back the produced file path, if any. -/
def download_format (env : Env) (f : FormatInfo) : Option String × List Effect :=
  (env.downloadOutcome f, [Effect.clearWorkspace, Effect.fetchFormat f.format_id])

/-- Python truthiness of the optional declared megabyte size
(`if format_info.filesize_mb:`). -/
def truthyQ : Option ℚ → Bool
  | some q => decide (q ≠ 0)
  | none => false

/-- Embeds `VideoDownloader.try_format` (lines 166-181): fast-fail when the declared
size exceeds the ceiling; otherwise fetch via `download_format`, re-measure
the on-disk size (`check_file_size`, lines 161-164), and read the artifact
back only when it fits. -/
def try_format (env : Env) (max_size_mb : Nat) (f : FormatInfo) :
    Option (List Nat) × List Effect :=
  if truthyQ f.filesize_mb ∧ f.filesize_mb.getD 0 > (max_size_mb : ℚ) then (none, [])
  else
    let dl := download_format env f
    match dl.1 with
    | none => (none, dl.2)
    | some filepath =>
      let size_mb : ℚ := (env.fileSizeBytes filepath : ℚ) / 1024 / 1024
      if size_mb ≤ (max_size_mb : ℚ) then
        (some (env.fileContents filepath), dl.2 ++ [Effect.readFile filepath])
      else (none, dl.2)

/-- C5: when a candidate's declared (estimated) size in megabytes exceeds the
size ceiling, `try_format` returns the absence signal (`none`) with an empty
effect trace: the external fetch tool is not invoked and the workspace is
never touched. -/
theorem try_format_fast_fail (env : Env) (max_size_mb : Nat) (f : FormatInfo)
    (q : ℚ) (hq : f.filesize_mb = some q) (hgt : q > (max_size_mb : ℚ)) :
    try_format env max_size_mb f = (none, []) := by
  have hq0 : q ≠ 0 := by
    have hnn : (0 : ℚ) ≤ (max_size_mb : ℚ) := by positivity
    intro h0
    rw [h0] at hgt
    linarith
  unfold try_format
  rw [hq]
  rw [if_pos]
  exact ⟨by simp [truthyQ, hq0], by simpa using hgt⟩

/-- A candidate declaring 60 MiB (62914560 bytes). -/
def bigInfo : FormatInfo :=
  { format_id := "big", height := 1080, filesize := some 62914560,
    acodec := "aac", vcodec := "h264", ext := "mp4", protocol := "https" }

/-- A concrete oracle whose fetch would succeed if invoked. -/
def envSample : Env :=
  { downloadOutcome := fun _ => some "/tmp/v.mp4",
    fileSizeBytes := fun _ => 1048576,
    fileContents := fun _ => [1] }

theorem try_format_fast_fail_witness :
    bigInfo.filesize_mb = some 60 ∧ (60 : ℚ) > (MAX_SIZE_MB : ℚ) ∧
      try_format envSample MAX_SIZE_MB bigInfo = (none, []) :=
  ⟨by norm_num [bigInfo, FormatInfo.filesize_mb], by norm_num [MAX_SIZE_MB],
    try_format_fast_fail envSample MAX_SIZE_MB bigInfo 60
      (by norm_num [bigInfo, FormatInfo.filesize_mb]) (by norm_num [MAX_SIZE_MB])⟩

/-! ### `src/utils/download_utils.py`: the gallery-style pipeline -/

/-- Embeds `CODECS_TO_REFORMAT = ['vp9']` (download_utils.py line 15). -/
def CODECS_TO_REFORMAT : List String := ["vp9"]

/-- Embeds `IMAGE_EXTS` (line 17), as lowercase character lists. -/
def IMAGE_EXTS : List (List Char) :=
  [".jpg".toList, ".jpeg".toList, ".png".toList, ".webp".toList, ".gif".toList]

/-- Embeds `VIDEO_EXTS` (line 18). -/
def VIDEO_EXTS : List (List Char) :=
  [".mp4".toList, ".mov".toList, ".mkv".toList, ".webm".toList]

/-- Final `/`-separated component of a path (`PurePath.name`). -/
def pathNameChars (p : String) : List Char :=
  p.toList.foldl (fun acc c => if c == '/' then [] else acc ++ [c]) []

/-- Index of the last `.` in a character list, if any. -/
def lastDotIdx : List Char → Option Nat
  | [] => none
  | c :: t =>
    match lastDotIdx t with
    | some i => some (i + 1)
    | none => if c == '.' then some 0 else none

/-- Embeds `PurePath.suffix`: the extension of the final component including the
dot, empty when the last dot is leading or trailing or absent. -/
def pathSuffixChars (p : String) : List Char :=
  let name := pathNameChars p
  match lastDotIdx name with
  | some i => if 0 < i ∧ i < name.length - 1 then name.drop i else []
  | none => []

/-- Embeds `PurePath.stem`: the final component without its suffix. -/
def pathStemChars (p : String) : List Char :=
  let name := pathNameChars p
  match lastDotIdx name with
  | some i => if 0 < i ∧ i < name.length - 1 then name.take i else name
  | none => name

/-- Embeds `Path(file).suffix.lower()` (line 193). -/
def extLower (p : String) : List Char :=
  (pathSuffixChars p).map Char.toLower

/-- Embeds `input_path.with_stem(input_path.stem + "_fixed")` (fix_video, line 78):
same parent and suffix, `_fixed` appended to the stem. -/
def fixedPath (p : String) : String :=
  let name := pathNameChars p
  let parent := p.toList.take (p.toList.length - name.length)
  String.mk (parent ++ pathStemChars p ++ "_fixed".toList ++ pathSuffixChars p)

/-- Round half-to-even on `ℚ` (Python's bankers' `round`). -/
def roundHalfEven (q : ℚ) : ℤ :=
  let n := Rat.floor q
  let f := q - n
  if f < 1 / 2 then n
  else if 1 / 2 < f then n + 1
  else if n % 2 = 0 then n else n + 1

/-- Python `round(x, 2)`. -/
def round2 (q : ℚ) : ℚ := (roundHalfEven (q * 100) : ℚ) / 100

/-- The `video_stream` fields of `get_metadata` (lines 51-67) that drive
control flow; each may be null.  `get_metadata` returns null when the probe
raised (line 72), and a successful probe always yields a non-empty (truthy)
`video_stream` dict, so one `Option` layer captures both `metadata` and
`vs` truthiness. -/
structure VideoStreamInfo where
  codec : Option String
  width : Option Nat
  height : Option Nat
deriving Repr, DecidableEq

/-- One deliverable content entry of the payload dict (lines 209-214 and
239-244). -/
structure ContentItem where
  type : String
  data : List Nat
  width : Option Nat
  height : Option Nat
deriving Repr, DecidableEq

/-- The payload dict `{"caption": ..., "content": ...}` (lines 246-249). -/
structure Payload where
  caption : String
  content : List ContentItem
deriving Repr, DecidableEq

/-- Observable side effects inside `download_post_json`. -/
inductive GEff where
  | getsize (p : String)
  | imageOpen (p : String)
  | probe (p : String)
  | callback (s : String)
  | ffmpegRun (input output : String)
  | readFile (p : String)
deriving Repr, DecidableEq

/-- Oracle for the externally determined outcomes inside `download_post_json`:
the media files the gallery tool wrote and the caption picked from the
sidecar, `os.path.getsize`, `PIL.Image.open(...).size` (null when opening
raised), `get_metadata`, whether the `ffmpeg` re-encode exits with status 0,
and `open(...).read()`. -/
structure GEnv where
  mediaFiles : List String
  caption : String
  sizeBytes : String → Nat
  imageSize : String → Option (Nat × Nat)
  probe : String → Option VideoStreamInfo
  ffmpegOk : String → Bool
  contents : String → List Nat

/-- Embeds `round(os.path.getsize(file) / 1024 / 1024, 2)` (lines 194 and 228). -/
def sizeMbOf (env : GEnv) (p : String) : ℚ :=
  round2 ((env.sizeBytes p : ℚ) / 1024 / 1024)

/-- Embeds `codec in CODECS_TO_REFORMAT` (line 223); a null codec is never in the
denylist. -/
def inReformatList : Option String → Bool
  | some c => CODECS_TO_REFORMAT.contains c
  | none => false

/-- The `'Обработка...'` status
string passed to the progress callback before the re-encode (line 224). -/
def processingMsg : String :=
  "Обработка..."

/-- What one iteration of the `for file in files` loop contributes. -/
inductive StepRes where
  | item (it : ContentItem)
  | skip
  | tooLarge
  | err (msg : String)
deriving Repr, DecidableEq

/-- One iteration of the loop in `download_post_json` (lines 192-244):
size gate first (`return None` when over the ceiling), then the image branch,
then the video branch with its conditional vp9 re-encode — on re-encode the
size is re-measured (`return None` when now over the ceiling) and the
metadata re-probed before the item is assembled. -/
def process_media_file (env : GEnv) (file : String) : StepRes × List GEff :=
  let ext := extLower file
  if sizeMbOf env file > (MAX_SIZE_MB : ℚ) then (StepRes.tooLarge, [GEff.getsize file])
  else if ext ∈ IMAGE_EXTS then
    let wh := env.imageSize file
    (StepRes.item
        { type := "image", data := env.contents file,
          width := wh.map Prod.fst, height := wh.map Prod.snd },
      [GEff.getsize file, GEff.imageOpen file, GEff.readFile file])
  else if ext ∈ VIDEO_EXTS then
    let vs := env.probe file
    let codec := vs.bind VideoStreamInfo.codec
    let w := vs.bind VideoStreamInfo.width
    let h := vs.bind VideoStreamInfo.height
    if inReformatList codec then
      let out := fixedPath file
      if env.ffmpegOk file then
        if sizeMbOf env out > (MAX_SIZE_MB : ℚ) then
          (StepRes.tooLarge,
            [GEff.getsize file, GEff.probe file, GEff.callback processingMsg,
              GEff.ffmpegRun file out, GEff.getsize out])
        else
          let vs2 := env.probe out
          let w2 := match vs2 with | some v => v.width | none => w
          let h2 := match vs2 with | some v => v.height | none => h
          (StepRes.item
              { type := "video", data := env.contents out,
                width := w2, height := h2 },
            [GEff.getsize file, GEff.probe file, GEff.callback processingMsg,
              GEff.ffmpegRun file out, GEff.getsize out, GEff.probe out,
              GEff.readFile out])
      else
        (StepRes.err "RuntimeError",
          [GEff.getsize file, GEff.probe file, GEff.callback processingMsg,
            GEff.ffmpegRun file out])
    else
      (StepRes.item
          { type := "video", data := env.contents file,
            width := w, height := h },
        [GEff.getsize file, GEff.probe file, GEff.readFile file])
  else (StepRes.skip, [GEff.getsize file])

/-- The loop of `download_post_json` over the media files, threading the
accumulated content list and short-circuiting on `return None` (size gate)
and on a raised re-encode error. -/
def buildContent (env : GEnv) : List String → List ContentItem →
    Except String (Option (List ContentItem)) × List GEff
  | [], acc => (Except.ok (some acc), [])
  | f :: rest, acc =>
    let st := process_media_file env f
    match st.1 with
    | StepRes.tooLarge => (Except.ok none, st.2)
    | StepRes.err m => (Except.error m, st.2)
    | StepRes.skip =>
      let r := buildContent env rest acc
      (r.1, st.2 ++ r.2)
    | StepRes.item it =>
      let r := buildContent env rest (acc ++ [it])
      (r.1, st.2 ++ r.2)

/-- Embeds `download_post_json` (lines 183-249) after a successful `download_post`:
process every media file, returning the payload dict, or `None` once any
file (original or re-encoded) exceeds the ceiling, or a raised error. -/
def download_post_json (env : GEnv) : Except String (Option Payload) × List GEff :=
  let r := buildContent env env.mediaFiles []
  ((match r.1 with
    | Except.ok (some content) => Except.ok (some { caption := env.caption, content := content })
    | Except.ok none => Except.ok none
    | Except.error m => Except.error m), r.2)

/-- Number of re-encode invocations in an effect trace. -/
def countFix (tr : List GEff) : Nat :=
  tr.countP (fun e => match e with | GEff.ffmpegRun _ _ => true | _ => false)

/-- C6: for a video artifact within the size budget whose probed codec is
"vp9", the re-encode runs exactly once, producing the `_fixed` artifact; an
accepted item carries the re-encoded artifact's bytes and is accepted only
when the re-encoded size passed the ceiling re-check, with dimensions taken
from the post-re-encode probe whenever that probe succeeds; an oversized
re-encode yields the too-large outcome; and an artifact whose probed codec is
outside the denylist is never re-encoded. -/
theorem process_vp9_reencode (env : GEnv) (file : String)
    (hext : extLower file ∈ VIDEO_EXTS)
    (hsize : ¬ sizeMbOf env file > (MAX_SIZE_MB : ℚ)) :
    ((env.probe file).bind VideoStreamInfo.codec = some "vp9" →
      countFix (process_media_file env file).2 = 1 ∧
        GEff.ffmpegRun file (fixedPath file) ∈ (process_media_file env file).2 ∧
        (∀ it, (process_media_file env file).1 = StepRes.item it →
          ¬ sizeMbOf env (fixedPath file) > (MAX_SIZE_MB : ℚ) ∧
            it.data = env.contents (fixedPath file) ∧
            GEff.probe (fixedPath file) ∈ (process_media_file env file).2 ∧
            ∀ v, env.probe (fixedPath file) = some v →
              it.width = v.width ∧ it.height = v.height) ∧
        (env.ffmpegOk file = true → sizeMbOf env (fixedPath file) > (MAX_SIZE_MB : ℚ) →
          (process_media_file env file).1 = StepRes.tooLarge)) ∧
    (inReformatList ((env.probe file).bind VideoStreamInfo.codec) = false →
      countFix (process_media_file env file).2 = 0) := by
  have hnotimg : extLower file ∉ IMAGE_EXTS := by
    have hdisj : ∀ x ∈ VIDEO_EXTS, x ∉ IMAGE_EXTS := by decide
    exact hdisj _ hext
  constructor
  · intro hvp9
    have hre : inReformatList ((env.probe file).bind VideoStreamInfo.codec) = true := by
      rw [hvp9]; rfl
    cases hok : env.ffmpegOk file with
    | false =>
      have hpm : process_media_file env file
          = (StepRes.err "RuntimeError",
              [GEff.getsize file, GEff.probe file, GEff.callback processingMsg,
                GEff.ffmpegRun file (fixedPath file)]) := by
        simp only [process_media_file, if_neg hsize, if_neg hnotimg, if_pos hext, hre,
          if_true, hok, Bool.false_eq_true, if_false]
      refine ⟨?_, ?_, ?_, ?_⟩
      · rw [hpm]; rfl
      · rw [hpm]; simp
      · intro it hit
        rw [hpm] at hit
        exact absurd hit (by simp)
      · intro hoktrue
        exact absurd hoktrue (by simp)
    | true =>
      by_cases hs2 : sizeMbOf env (fixedPath file) > (MAX_SIZE_MB : ℚ)
      · have hpm : process_media_file env file
            = (StepRes.tooLarge,
                [GEff.getsize file, GEff.probe file, GEff.callback processingMsg,
                  GEff.ffmpegRun file (fixedPath file), GEff.getsize (fixedPath file)]) := by
          simp only [process_media_file, if_neg hsize, if_neg hnotimg, if_pos hext, hre,
            if_true, hok, if_pos hs2]
        refine ⟨?_, ?_, ?_, ?_⟩
        · rw [hpm]; rfl
        · rw [hpm]; simp
        · intro it hit
          rw [hpm] at hit
          exact absurd hit (by simp)
        · intro _ _
          rw [hpm]
      · have hpm : process_media_file env file
            = (StepRes.item
                { type := "video", data := env.contents (fixedPath file),
                  width :=
                    match env.probe (fixedPath file) with
                    | some v => v.width
                    | none => (env.probe file).bind VideoStreamInfo.width,
                  height :=
                    match env.probe (fixedPath file) with
                    | some v => v.height
                    | none => (env.probe file).bind VideoStreamInfo.height },
                [GEff.getsize file, GEff.probe file, GEff.callback processingMsg,
                  GEff.ffmpegRun file (fixedPath file), GEff.getsize (fixedPath file),
                  GEff.probe (fixedPath file), GEff.readFile (fixedPath file)]) := by
          simp only [process_media_file, if_neg hsize, if_neg hnotimg, if_pos hext, hre,
            if_true, hok, if_neg hs2]
        refine ⟨?_, ?_, ?_, ?_⟩
        · rw [hpm]; rfl
        · rw [hpm]; simp
        · intro it hit
          rw [hpm] at hit
          simp only [StepRes.item.injEq] at hit
          refine ⟨hs2, ?_, ?_, ?_⟩
          · rw [← hit]
          · rw [hpm]; simp
          · intro v hv
            rw [← hit, hv]
            exact ⟨rfl, rfl⟩
        · intro _ hs2t
          exact absurd hs2t hs2
  · intro hnore
    have hpm : process_media_file env file
        = (StepRes.item
            { type := "video", data := env.contents file,
              width := (env.probe file).bind VideoStreamInfo.width,
              height := (env.probe file).bind VideoStreamInfo.height },
          [GEff.getsize file, GEff.probe file, GEff.readFile file]) := by
      simp only [process_media_file, if_neg hsize, if_neg hnotimg, if_pos hext, hnore,
        Bool.false_eq_true, if_false]
    rw [hpm]
    rfl

/-- Sample artifact for the vp9 scenario. -/
def gfile : String := "/tmp/v.mp4"

/-- A concrete oracle: `gfile` is a 10 MiB vp9 video; its re-encode is a
20 MiB h264 video with corrected dimensions. -/
def genvC6 : GEnv :=
  { mediaFiles := [gfile]
    caption := "cap"
    sizeBytes := fun p => if p == "/tmp/v_fixed.mp4" then 20971520 else 10485760
    imageSize := fun _ => none
    probe := fun p =>
      if p == "/tmp/v_fixed.mp4" then
        some { codec := some "h264", width := some 1280, height := some 720 }
      else some { codec := some "vp9", width := some 640, height := some 360 }
    ffmpegOk := fun _ => true
    contents := fun _ => [7] }

unseal Rat.mul Rat.inv Rat.add Rat.sub Nat.gcd in
theorem process_vp9_reencode_witness :
    extLower gfile ∈ VIDEO_EXTS ∧
      ¬ sizeMbOf genvC6 gfile > (MAX_SIZE_MB : ℚ) ∧
      (genvC6.probe gfile).bind VideoStreamInfo.codec = some "vp9" ∧
      countFix (process_media_file genvC6 gfile).2 = 1 :=
  ⟨by decide, by decide, by decide,
    ((process_vp9_reencode genvC6 gfile (by decide) (by decide)).1 (by decide)).1⟩

/-! ### Failure classification, the two-strategy wrapper, and the handler -/

/-- Error-code classification inside `download_post` (download_utils.py lines
146-153): substring matching on the failed gallery-tool invocation's message,
lowercased. -/
def download_post_classify (msg : String) : String :=
  if strHasSubLower msg "inappropriate" then "INAPPROPRIATE_CONTENT"
  else if strHasSubLower msg "no video" || strHasSubLower msg "no results" then "NO_VIDEO"
  else "UNABLE_TO_DOWNLOAD"

/-- Typed failure taxonomy of `src/core/errors.py` (the subclass `NoVideo`
collapses into `NoMedia`, which subsumes it in the handler's `except`
clauses), plus a catch-all for any other exception reaching the handler's
final `except Exception`. -/
inductive PyExc where
  | inappropriateContent
  | noMedia
  | tooLarge
  | unsupportedSite
  | downloadError
  | otherExc (name : String)
deriving Repr, DecidableEq

/-- Modelled from the spec: the code-to-taxonomy mapping of the capable
download-utility variant (the second of the two download-utility variants the
spec's budget counts; it is not among the sources here).  Per spec §6/§7 the
classified codes map to Inappropriate Content and No Media Found, and any
unmatched extraction failure is Unsupported Source. -/
def typedOf (code : String) : PyExc :=
  if code = "INAPPROPRIATE_CONTENT" then PyExc.inappropriateContent
  else if code = "NO_VIDEO" ∨ code = "NO_FILES_IN_DIRECTORY" then PyExc.noMedia
  else PyExc.unsupportedSite

/-- Observable actions of one handled request. -/
inductive Action where
  | replyStatus (s : String)
  | progress (s : String)
  | notifyAdmin (note : String)
  | retrySingleVideo (url : String)
  | sendPayload (p : Payload)
  | deleteStatus
deriving Repr, DecidableEq

/-- How the gallery-style extraction went: the tool invocation failed with
combined output `msg` (download_post, lines 137-153), or it succeeded and the
per-file processing ran against oracle `env`. -/
inductive GalleryRun where
  | toolFailure (msg : String)
  | processed (env : GEnv)

/-- Modelled from the spec: the status string of the "fallback triggered"
progress milestone (spec §4.5 side effects; the concrete wording is not fixed
by the spec). -/
def fallbackMsg : String := "retrying via the single-video pipeline"

/-- Modelled from the spec: the two-strategy cascade of the capable
download-utility variant (spec §4.5/§7), absent from the sources here — only
its collaborators are present (`text.py` catches the typed failures it
raises, and `download_video_bytes`, its single-video fallback, has no caller
among the sources).  On a gallery failure classified as Unsupported Source or
No Media Found it emits a progress update and retries exactly once against
the single-video pipeline for the same URL (outcome `fallback`); Inappropriate
Content propagates immediately without retry; the oversize sentinel `None`
of `download_post_json` becomes the typed Oversized failure; a re-encode
fault propagates as an unclassified error. -/
def download_media (run : GalleryRun) (fallback : Except PyExc Payload)
    (url : String) : Except PyExc Payload × List Action :=
  match run with
  | GalleryRun.toolFailure msg =>
    match typedOf (download_post_classify msg) with
    | PyExc.unsupportedSite =>
      (fallback, [Action.progress fallbackMsg, Action.retrySingleVideo url])
    | PyExc.noMedia =>
      (fallback, [Action.progress fallbackMsg, Action.retrySingleVideo url])
    | e => (Except.error e, [])
  | GalleryRun.processed env =>
    match (download_post_json env).1 with
    | Except.ok (some p) => (Except.ok p, [])
    | Except.ok none => (Except.error PyExc.tooLarge, [])
    | Except.error m => (Except.error (PyExc.otherExc m), [])

/-- Status strings of `text_private_handler`, byte-for-byte as the literals
stored in `src/handlers/text.py` (that file's literals are mojibake of UTF-8
Cyrillic; they are reproduced exactly as stored, via escapes). -/
def S_loading : String :=
  "‚è≥–ó–∞–≥—Ä—É–∂–∞—é..."

def S_sending : String :=
  "üì§–û—Ç–ø—Ä–∞–≤–ª—è—é..."

def S_inappropriate : String :=
  "–≠—Ç–æ –≤–∏–¥–µ–æ –ø–æ–∫–∞ –Ω–µ–ª—å–∑—è —Å–∫–∞—á–∞—Ç—å, –ø–æ–ø—Ä–æ–±—É–π—Ç–µ –ø–æ–∑–∂–µ.\n–†–∞–∑—Ä–∞–±–æ—Ç—á–∏–∫—É –æ—Ç–ø—Ä–∞–≤–ª–µ–Ω–æ —É–≤–µ–¥–æ–º–ª–µ–Ω–∏–µ –æ–± –æ—à–∏–±–∫–µ."

def N_inappropriate : String :=
  "—Å—Ç—É—Ö–ª–∏ –∫—É–∫–∏"

def S_noMedia : String :=
  "–í –ø–æ—Å—Ç–µ –Ω–µ—Ç –º–µ–¥–∏–∞ üò•"

def S_tooLarge : String :=
  "–°–ª–∏—à–∫–æ–º –±–æ–ª—å—à–æ–π —Ñ–∞–π–ª(—ã) üò•"

def S_unsupported : String :=
  "–ù–∏–∞—Å–∏–ª–∏–ªüò• –ù–µ–ø–æ–¥–¥–µ—Ä–∂–∏–≤–∞–µ–º—ã–π —Å–∞–π—Ç"

def N_unsupported : String :=
  "–ø—ã—Ç–∞–ª–∏—Å—å —Å–∫–∞—á–∞—Ç—å"

def S_downloadError : String :=
  "–û—à–∏–±–∫–∞ –∑–∞–≥—Ä—É–∑–∫–∏ üò• –ü–æ–ø—Ä–æ–±—É–π—Ç–µ –ø–æ–∑–∂–µ"

def S_other : String :=
  "–¢–µ–ª–µ–≥—Ä–∞–º –Ω–µ –ø—É—Å–∫–∞–µ—Ç –∏–ª–∏ –ø—Ä–æ–∏–∑–æ—à–ª–∞ –æ—à–∏–±–∫–∞. –ü–æ–ø—Ä–æ–±—É–π—Ç–µ —Å–Ω–æ–≤–∞"

def N_other : String :=
  "–ø—ã—Ç–∞–ª–∏—Å—å —Å–∫–∞—á–∞—Ç—å (unknown error)"

/-- Dispatch of `text_private_handler`'s `try/except` chain (text.py lines
105-146) on the download phase's outcome: the success path sends the payload
and deletes the status message (a transport-accepted send is assumed; logging
calls are not modelled), and each typed failure maps to its fixed status
string, with operator notification on Inappropriate Content, Unsupported
Site, Download Error and unclassified failures. -/
def handlerDispatch (res : Except PyExc Payload) : List Action :=
  match res with
  | Except.ok p => [Action.progress S_sending, Action.sendPayload p, Action.deleteStatus]
  | Except.error PyExc.inappropriateContent =>
    [Action.progress S_inappropriate, Action.notifyAdmin N_inappropriate]
  | Except.error PyExc.noMedia => [Action.progress S_noMedia]
  | Except.error PyExc.tooLarge => [Action.progress S_tooLarge]
  | Except.error PyExc.unsupportedSite =>
    [Action.progress S_unsupported, Action.notifyAdmin N_unsupported]
  | Except.error PyExc.downloadError =>
    [Action.progress S_downloadError, Action.notifyAdmin "download error: DownloadError"]
  | Except.error (PyExc.otherExc _) => [Action.progress S_other, Action.notifyAdmin N_other]

/-- Embedding of `text_private_handler` (text.py lines 103-146) from the point
where the URL checks passed: create the status reply (`_make_progress`), emit
the initial progress update, run the download phase (the spec-modelled
`download_media` wrapper over the sources' `download_post_json`), and
dispatch on its outcome. -/
def text_private_handler (run : GalleryRun) (fallback : Except PyExc Payload)
    (url : String) : List Action :=
  let r := download_media run fallback url
  Action.replyStatus S_loading :: Action.progress S_loading :: (r.2 ++ handlerDispatch r.1)

/-- Number of single-video retries in an action trace. -/
def countRetry (tr : List Action) : Nat :=
  tr.countP (fun a => match a with | Action.retrySingleVideo _ => true | _ => false)

/-- Number of operator notifications in an action trace. -/
def countNotify (tr : List Action) : Nat :=
  tr.countP (fun a => match a with | Action.notifyAdmin _ => true | _ => false)

theorem handlerDispatch_no_retry (res : Except PyExc Payload) :
    countRetry (handlerDispatch res) = 0 := by
  cases res with
  | ok p => rfl
  | error e => cases e <;> rfl

/-- C2 (spec-modelled wrapper): when the gallery-style pipeline fails with the
Unsupported Source outcome, exactly one retry occurs against the single-video
pipeline for the same URL, and a progress update is emitted immediately
before the retry begins. -/
theorem unsupported_retries_once (msg url : String) (fallback : Except PyExc Payload)
    (hclass : typedOf (download_post_classify msg) = PyExc.unsupportedSite) :
    countRetry (text_private_handler (GalleryRun.toolFailure msg) fallback url) = 1 ∧
      (text_private_handler (GalleryRun.toolFailure msg) fallback url).take 4
        = [Action.replyStatus S_loading, Action.progress S_loading,
            Action.progress fallbackMsg, Action.retrySingleVideo url] := by
  have hdm : download_media (GalleryRun.toolFailure msg) fallback url
      = (fallback, [Action.progress fallbackMsg, Action.retrySingleVideo url]) := by
    simp only [download_media]
    rw [hclass]
  constructor
  · unfold text_private_handler
    rw [hdm]
    simp only [countRetry, List.countP_cons, List.countP_append] at *
    have := handlerDispatch_no_retry fallback
    simp only [countRetry] at this
    simp [this]
  · unfold text_private_handler
    rw [hdm]
    rfl

theorem unsupported_retries_once_witness :
    typedOf (download_post_classify "HTTP Error 403: generic failure") = PyExc.unsupportedSite ∧
      countRetry (text_private_handler
        (GalleryRun.toolFailure "HTTP Error 403: generic failure")
        (Except.error PyExc.noMedia) "https://example.com/p/1") = 1 :=
  ⟨by decide,
    (unsupported_retries_once "HTTP Error 403: generic failure" "https://example.com/p/1"
      (Except.error PyExc.noMedia) (by decide)).1⟩

/-- C8: an extraction-tool failure whose message contains "inappropriate" is
classified as the Inappropriate Content code and typed failure; no retry
against the fallback pipeline is attempted, and the operator-notification
side channel is triggered exactly once. -/
theorem inappropriate_no_retry (msg url : String) (fallback : Except PyExc Payload)
    (hsub : strHasSubLower msg "inappropriate" = true) :
    download_post_classify msg = "INAPPROPRIATE_CONTENT" ∧
      typedOf (download_post_classify msg) = PyExc.inappropriateContent ∧
      countRetry (text_private_handler (GalleryRun.toolFailure msg) fallback url) = 0 ∧
      countNotify (text_private_handler (GalleryRun.toolFailure msg) fallback url) = 1 := by
  have hcode : download_post_classify msg = "INAPPROPRIATE_CONTENT" := by
    unfold download_post_classify
    rw [if_pos hsub]
  have htyped : typedOf (download_post_classify msg) = PyExc.inappropriateContent := by
    rw [hcode]
    rfl
  have hdm : download_media (GalleryRun.toolFailure msg) fallback url
      = (Except.error PyExc.inappropriateContent, []) := by
    simp only [download_media]
    rw [htyped]
  refine ⟨hcode, htyped, ?_, ?_⟩
  · unfold text_private_handler
    rw [hdm]
    rfl
  · unfold text_private_handler
    rw [hdm]
    rfl

theorem inappropriate_no_retry_witness :
    strHasSubLower "403 Forbidden: Inappropriate content detected" "inappropriate" = true ∧
      countNotify (text_private_handler
        (GalleryRun.toolFailure "403 Forbidden: Inappropriate content detected")
        (Except.error PyExc.noMedia) "https://example.com/p/2") = 1 :=
  ⟨by decide,
    (inappropriate_no_retry "403 Forbidden: Inappropriate content detected"
      "https://example.com/p/2" (Except.error PyExc.noMedia) (by decide)).2.2.2⟩

/-- A file that breaches the size ceiling: already oversized on disk, or a
vp9 video within budget whose successful re-encode is oversized. -/
def breachesCeiling (env : GEnv) (f : String) : Prop :=
  sizeMbOf env f > (MAX_SIZE_MB : ℚ) ∨
    (extLower f ∈ VIDEO_EXTS ∧ (env.probe f).bind VideoStreamInfo.codec = some "vp9" ∧
      env.ffmpegOk f = true ∧ sizeMbOf env (fixedPath f) > (MAX_SIZE_MB : ℚ))

instance breachesCeilingDec (env : GEnv) (f : String) :
    Decidable (breachesCeiling env f) := by
  unfold breachesCeiling
  exact inferInstance

theorem process_breaches (env : GEnv) (f : String) (hb : breachesCeiling env f) :
    (process_media_file env f).1 = StepRes.tooLarge := by
  by_cases hsize : sizeMbOf env f > (MAX_SIZE_MB : ℚ)
  · simp only [process_media_file, if_pos hsize]
  · rcases hb with hb | ⟨hext, hvp9, hok, hs2⟩
    · exact absurd hb hsize
    · have hnotimg : extLower f ∉ IMAGE_EXTS := by
        have hdisj : ∀ x ∈ VIDEO_EXTS, x ∉ IMAGE_EXTS := by decide
        exact hdisj _ hext
      have hre : inReformatList ((env.probe f).bind VideoStreamInfo.codec) = true := by
        rw [hvp9]; rfl
      simp only [process_media_file, if_neg hsize, if_neg hnotimg, if_pos hext, hre,
        if_true, hok, if_pos hs2]

theorem buildContent_head_tooLarge (env : GEnv) (f0 : String) (rest : List String)
    (acc : List ContentItem) (hb : (process_media_file env f0).1 = StepRes.tooLarge) :
    (buildContent env (f0 :: rest) acc).1 = Except.ok none := by
  simp only [buildContent]
  rw [hb]

theorem download_post_json_none (env : GEnv) (f0 : String) (rest : List String)
    (hfiles : env.mediaFiles = f0 :: rest)
    (hb : (process_media_file env f0).1 = StepRes.tooLarge) :
    (download_post_json env).1 = Except.ok none := by
  have hbc := buildContent_head_tooLarge env f0 rest [] hb
  simp only [download_post_json]
  rw [hfiles, hbc]

/-- C7: when the gallery tool succeeded but every produced file exceeds the
50 MB ceiling (before or after optional re-encoding), the request terminates
as the typed Oversized failure (TooLarge), and the user-visible status update
is the one fixed TooLarge string, distinct from every other status string the
handler can emit. -/
theorem oversized_toolarge (env : GEnv) (fallback : Except PyExc Payload) (url : String)
    (f0 : String) (rest : List String) (hfiles : env.mediaFiles = f0 :: rest)
    (hall : ∀ f ∈ env.mediaFiles, breachesCeiling env f) :
    (download_media (GalleryRun.processed env) fallback url).1
        = Except.error PyExc.tooLarge ∧
      text_private_handler (GalleryRun.processed env) fallback url
        = [Action.replyStatus S_loading, Action.progress S_loading,
            Action.progress S_tooLarge] ∧
      S_tooLarge ≠ S_sending ∧ S_tooLarge ≠ S_inappropriate ∧ S_tooLarge ≠ S_noMedia ∧
      S_tooLarge ≠ S_unsupported ∧ S_tooLarge ≠ S_downloadError ∧ S_tooLarge ≠ S_other := by
  have hb := process_breaches env f0 (hall f0 (by rw [hfiles]; exact List.mem_cons_self f0 rest))
  have hnone := download_post_json_none env f0 rest hfiles hb
  have hdm : download_media (GalleryRun.processed env) fallback url
      = (Except.error PyExc.tooLarge, []) := by
    simp only [download_media]
    rw [hnone]
  refine ⟨by rw [hdm], ?_, by decide, by decide, by decide, by decide, by decide, by decide⟩
  unfold text_private_handler
  rw [hdm]
  rfl

/-- Oracle for an oversized single-image post (a 100 MiB file). -/
def envC7 : GEnv :=
  { mediaFiles := ["/tmp/huge.jpg"], caption := "c",
    sizeBytes := fun _ => 104857600, imageSize := fun _ => none,
    probe := fun _ => none, ffmpegOk := fun _ => false, contents := fun _ => [] }

unseal Rat.mul Rat.inv Rat.add Rat.sub Nat.gcd in
theorem oversized_toolarge_witness :
    envC7.mediaFiles = ["/tmp/huge.jpg"] ∧
      (∀ f ∈ envC7.mediaFiles, breachesCeiling envC7 f) ∧
      (download_media (GalleryRun.processed envC7) (Except.error PyExc.noMedia) "u").1
        = Except.error PyExc.tooLarge :=
  ⟨rfl, by decide,
    (oversized_toolarge envC7 (Except.error PyExc.noMedia) "u" "/tmp/huge.jpg" [] rfl
      (by decide)).1⟩

end Linkinzzz
